import Mathlib

/-
Verification of the awsRender Remote Resource & Command Execution Layer
(packages sshCmdClient and ec2RunCmd) against its design specification.

The Go code is shallowly embedded: each effectful step of the SSH library
(session creation, pty allocation, running the command, dialing) is an
outcome supplied by the environment, and the repository's functions are
translated as pure functions of those outcomes.  Events record which
external calls the code performs, in order.
-/

/-- Go error values as the embedded code distinguishes them.  The x/crypto/ssh
library reports a command that exited non-zero as `*ssh.ExitError` (carrying
`Waitmsg.ExitStatus()`), a server that closed the session without reporting an
exit status as `*ssh.ExitMissingError`, and everything else as some other
error.  `wrapped pre e` models `fmt.Errorf("<pre> : %s", e)`. -/
inductive GoErr where
  | exitError (status : Nat)
  | exitMissing
  | other (msg : String)
  | wrapped (pre : String) (inner : GoErr)
deriving DecidableEq, Repr

/-- The environment's outcome for one ephemeral SSH sub-session, as consumed by
`RunCommandWithOutput` (sshCmdClient.go:81-121): `NewSession` may fail,
`RequestPty` may fail, or the session runs the command and `session.Run`
returns `res` (`none` models a nil error, i.e. the command exited 0) while the
session's stdout and stderr buffers receive `stdout` and `stderr`. -/
inductive SessionOutcome where
  | noSession (e : GoErr)
  | noPty (e : GoErr)
  | ran (res : Option GoErr) (stdout stderr : String)
deriving DecidableEq, Repr

/-- External calls made by one command execution, in order. -/
inductive Event where
  | newSession
  | requestPty (term : String) (height width : Nat)
  | runCmd (cmd : String)
  | closeSession
deriving DecidableEq, Repr

/-- The four return values of `RunCommandWithOutput`. -/
structure CmdResult where
  exitStatus : Int
  stdout : String
  stderr : String
  err : Option GoErr
deriving DecidableEq, Repr

/-- Embedding of `SSHCmdClient.RunCommandWithOutput` (sshCmdClient.go:81-121).
`NewSession` failure returns -1 with the wrapped error before `defer
session.Close()` is registered; `RequestPty` failure returns -1 with the
wrapped error (the deferred close runs); otherwise the command is run with
stdout/stderr attached to buffers and the error from `session.Run` is mapped
by the type switch: `*ssh.ExitError` yields its exit status with the error
cleared to nil, `*ssh.ExitMissingError` yields `statusMissingStatus` (1) with
`err` left as-is, and any other error yields `statusCmdFailedStatus` (1) with
`err` left as-is. -/
def RunCommandWithOutput (cmd : String) (o : SessionOutcome) :
    CmdResult × List Event :=
  match o with
  | .noSession e =>
      (⟨-1, "", "", some (.wrapped "unable to create session" e)⟩,
       [.newSession])
  | .noPty e =>
      (⟨-1, "", "", some (.wrapped "request for pseudo terminal failed" e)⟩,
       [.newSession, .requestPty "xterm" 40 80, .closeSession])
  | .ran res so se =>
      let r : CmdResult :=
        match res with
        | none => ⟨0, so, se, none⟩
        | some (.exitError n) => ⟨(n : Int), so, se, none⟩
        | some .exitMissing => ⟨1, so, se, some .exitMissing⟩
        | some e => ⟨1, so, se, some e⟩
      (r, [.newSession, .requestPty "xterm" 40 80, .runCmd cmd, .closeSession])

/-- Embedding of `SSHCmdClient.RunCommand` (sshCmdClient.go:75-78): calls
`RunCommandWithOutput` and discards the stdout and stderr buffers. -/
def RunCommand (cmd : String) (o : SessionOutcome) :
    (Int × Option GoErr) × List Event :=
  let r := RunCommandWithOutput cmd o
  ((r.1.exitStatus, r.1.err), r.2)

/-- Models x/crypto/ssh `Session.Run` for a command that ran to completion and
exited with code `n`: `Run` returns a nil error when the exit status is 0 and
a `*ssh.ExitError` carrying the status otherwise. -/
def runResultOfExit (n : Nat) : Option GoErr :=
  if n = 0 then none else some (.exitError n)

/-- The command string `BackgroundCommand` builds (sshCmdClient.go:127-133):
`fmt.Sprintf("nohup bash -c '((%s) &)' ", cmd)`, with `"&>/dev/null"`
appended when `discardOutput` is set. -/
def backgroundCmdString (cmd : String) (discardOutput : Bool) : String :=
  let c := "nohup bash -c '((" ++ cmd ++ ") &)' "
  if discardOutput then c ++ "&>/dev/null" else c

/-- Embedding of `SSHCmdClient.BackgroundCommand` (sshCmdClient.go:127-133):
wraps the command and delegates to `RunCommand`. -/
def BackgroundCommand (cmd : String) (discardOutput : Bool)
    (o : SessionOutcome) : (Int × Option GoErr) × List Event :=
  RunCommand (backgroundCmdString cmd discardOutput) o

/-- Whether an event is the sending of a command line to the remote. -/
def isRunCmdEvent : Event → Bool
  | .runCmd _ => true
  | _ => false

/-- Whether the sub-session outcome reaches `session.Run`. -/
def sessionRan : SessionOutcome → Bool
  | .ran _ _ _ => true
  | _ => false

/-- The single-quote character, written via its code point. -/
def quoteChar : Char := Char.ofNat 39

/-- The backslash character, written via its code point. -/
def backslashChar : Char := Char.ofNat 92

/-- Embedding of `strings.Replace(destination, "'", "'\\''", -1)` from
`writeToFile` (sshCmdClient.go:174): every single quote is replaced by the
four characters quote, backslash, quote, quote. -/
def escapeQuotes : List Char → List Char
  | [] => []
  | c :: cs =>
      if c = quoteChar then quoteChar :: backslashChar :: quoteChar :: quoteChar :: escapeQuotes cs
      else c :: escapeQuotes cs

/-- The quoted destination-path word of the `cat` command built by
`writeToFile`: a single quote, the escaped path, a single quote. -/
def shellQuoted (destination : List Char) : List Char :=
  quoteChar :: escapeQuotes destination ++ [quoteChar]

/-- The full remote command `writeToFile` issues (sshCmdClient.go:174):
`"cat >'" + strings.Replace(destination, "'", "'\\''", -1) + "'"`. -/
def writeToFileCmd (destination : List Char) : List Char :=
  "cat >".toList ++ shellQuoted destination

/-- POSIX shell unquoting of one word, used to state the escaping round-trip.
Outside single quotes only a quote (which opens a quoted span) or a
backslash-escaped character is accepted — any other unquoted character is
rejected, so a successful parse also certifies that nothing of the path
stands unquoted where the shell could interpret it.  Inside single quotes
every character except the closing quote is literal. -/
def shellUnquote : Bool → List Char → Option (List Char)
  | false, [] => some []
  | false, c :: cs =>
      if c = quoteChar then shellUnquote true cs
      else if c = backslashChar then
        match cs with
        | [] => none
        | d :: ds => (shellUnquote false ds).map (fun r => d :: r)
      else none
  | true, [] => none
  | true, c :: cs =>
      if c = quoteChar then shellUnquote false cs
      else (shellUnquote true cs).map (fun r => c :: r)

/-- A parsed SSH public key, as the x/crypto/ssh wire format structures it:
the algorithm name (the bytes `Type()` returns) and the key-specific
remainder of the encoding. -/
structure PubKey where
  algoName : List Nat
  keyRest : List Nat
deriving DecidableEq, Repr

/-- A 32-bit big-endian length, as the four bytes of the SSH wire format. -/
def u32be (n : Nat) : List Nat :=
  [n / 16777216 % 256, n / 65536 % 256, n / 256 % 256, n % 256]

/-- An SSH wire-format string: a 4-byte big-endian length, then the bytes. -/
def sshWireStr (s : List Nat) : List Nat := u32be s.length ++ s

/-- Models `ssh.PublicKey.Marshal()`: the wire encoding opens with the
algorithm name as an SSH string, followed by the key material. -/
def PubKey.Marshal (k : PubKey) : List Nat := sshWireStr k.algoName ++ k.keyRest

/-- Models `ssh.PublicKey.Type()`: the key's algorithm name. -/
def PubKey.keyType (k : PubKey) : List Nat := k.algoName

/-- Models x/crypto/ssh `FixedHostKey`: the callback it returns accepts the
presented key iff `bytes.Equal(presented.Marshal(), expected.Marshal())`. -/
def FixedHostKey (expected presented : PubKey) : Bool :=
  PubKey.Marshal presented == PubKey.Marshal expected

/-- The fields of `ssh.ClientConfig` that the embedding uses. -/
structure ClientConfig where
  user : String
  hostKeyCallback : PubKey → Bool
  hostKeyAlgorithms : List (List Nat)

/-- The `ssh.ClientConfig` literal built by `NewSSHCmdClient`
(sshCmdClient.go:56-63): fixed-key host verification against the parsed key
and exactly the one host-key algorithm of that key's type. -/
def sshConfigOf (username : String) (hostKey : PubKey) : ClientConfig :=
  { user := username
    hostKeyCallback := FixedHostKey hostKey
    hostKeyAlgorithms := [hostKey.keyType] }

/-- Models the transport handshake's host-identity verification: the server
can present a host key only of an algorithm the client offered in
`HostKeyAlgorithms`, and the connection completes only when the configured
host-key callback accepts the presented key. -/
def handshakeAccepts (cfg : ClientConfig) (remoteKey : PubKey) : Bool :=
  cfg.hostKeyAlgorithms.contains remoteKey.algoName &&
    cfg.hostKeyCallback remoteKey

/-- Outcome of `ssh.ParseAuthorizedKey` on the credentials' host-key text. -/
inductive HostKeyParse where
  | ok (k : PubKey)
  | err (e : GoErr)
deriving DecidableEq, Repr

/-- The network environment `ssh.Dial` runs against: the address is
unreachable (or auth fails), or the handshake reaches host-key verification
with the remote presenting `remoteKey`. -/
inductive DialEnv where
  | unreachable (e : GoErr)
  | presents (remoteKey : PubKey)
deriving DecidableEq, Repr

/-- External calls of `NewSSHCmdClient`, in program order. -/
inductive NewClientEvent where
  | parseHostKey
  | readPemFile
  | dial
deriving DecidableEq, Repr

/-- Embedding of `NewSSHCmdClient` (sshCmdClient.go:39-72).  The host-key
text is parsed first (line 52); a parse failure returns the wrapped error
before the PEM file is read and before any dial.  Otherwise the config of
`sshConfigOf` is built (reading the PEM file for the auth method) and
`ssh.Dial` runs against it: an unreachable address propagates the wrapped
dial error, a completed handshake succeeds iff the host-key check of
`handshakeAccepts` passes, a mismatch being a connection error. -/
def NewSSHCmdClient (username : String) (parseResult : HostKeyParse)
    (env : DialEnv) : Except GoErr ClientConfig × List NewClientEvent :=
  match parseResult with
  | .err e => (.error (.wrapped "Error parsing host key" e), [.parseHostKey])
  | .ok hostKey =>
      let cfg := sshConfigOf username hostKey
      match env with
      | .unreachable e =>
          (.error (.wrapped "unable to connect to SSH server" e),
           [.parseHostKey, .readPemFile, .dial])
      | .presents remoteKey =>
          if handshakeAccepts cfg remoteKey then
            (.ok cfg, [.parseHostKey, .readPemFile, .dial])
          else
            (.error (.wrapped "unable to connect to SSH server"
                (.other "ssh: host key mismatch")),
             [.parseHostKey, .readPemFile, .dial])

/-- The state of the one underlying transport connection. -/
structure ConnState where
  closed : Bool
deriving DecidableEq, Repr

/-- Models `ssh.Client.Conn.Close()` down to the underlying `net.Conn`:
closing an open connection succeeds and marks it closed; closing an
already-closed connection performs no further state change and returns the
Go net package's `use of closed network connection` error. -/
def Conn.Close (s : ConnState) : Option GoErr × ConnState :=
  if s.closed then (some (.other "use of closed network connection"), s)
  else (none, { closed := true })

/-- Embedding of `SSHCmdClient.Close` (sshCmdClient.go:33-36): returns
`cli.client.Conn.Close()`. -/
def SSHCmdClient.Close (s : ConnState) : Option GoErr × ConnState :=
  Conn.Close s

/-- Embedding of `EC2RemoteClient.Close` (ec2RunCmd.go:50-52): returns
`ins.cmdClient.Close()`. -/
def EC2RemoteClient.Close (s : ConnState) : Option GoErr × ConnState :=
  SSHCmdClient.Close s

/-- Outcome of the `DescribeInstanceStatus` control-plane query in
`makeReady` (ec2RunCmd.go:85): an error, or the instance state names of the
returned `InstanceStatuses`. -/
inductive InstanceStatusResult where
  | err (e : GoErr)
  | ok (states : List String)
deriving DecidableEq, Repr

/-- The control-plane and transport environment one `makeReady` call runs
against (ec2RunCmd.go:83-117): outcomes for the status query, the start
request and the readiness wait (`startInstance`), the address resolution
(`getIPAddress`, collapsed to its resulting error, `none` meaning an address
was obtained and parsed), the `NewSSHCmdClient` construction, and the
sub-session of the `RunCommand("true")` probe. -/
structure MakeReadyEnv where
  describeStatus : InstanceStatusResult
  startReq : Option GoErr
  waitReady : Option GoErr
  getIP : Option GoErr
  sshConnect : Option GoErr
  probe : SessionOutcome
deriving DecidableEq, Repr

/-- Embedding of `startInstance` (ec2RunCmd.go:55-67): issue the start
request, then block on the readiness wait; each failure is wrapped. -/
def startInstance (env : MakeReadyEnv) : Option GoErr :=
  match env.startReq with
  | some e => some (.wrapped "Error starting instance" e)
  | none =>
      match env.waitReady with
      | some e =>
          some (.wrapped "Error waiting for instance to become available" e)
      | none => none

/-- What `makeReady` returned and what it did to the SSH channel: the error
result, whether an SSH channel was successfully opened during the call, and
whether `Close` was called on that channel before returning. -/
structure MakeReadyResult where
  err : Option GoErr
  channelOpened : Bool
  channelClosed : Bool
deriving DecidableEq, Repr

/-- The start condition of `makeReady` (ec2RunCmd.go:92):
`len(result.InstanceStatuses) == 0 || *InstanceState.Name != "running"`. -/
def needsStart (states : List String) : Bool :=
  match states with
  | [] => true
  | s :: _ => s != "running"

/-- The probe check of `makeReady` (ec2RunCmd.go:111-112): whether
`RunCommand("true")` returned an error or a non-zero exit status. -/
def probeFails (o : SessionOutcome) : Bool :=
  (RunCommand "true" o).1.2.isSome || (RunCommand "true" o).1.1 != 0

/-- The tail of `makeReady` after the instance is known to be running
(ec2RunCmd.go:99-116): resolve the address, open the SSH channel, probe it.
No path calls `Close` on the opened channel. -/
def makeReadyAfterStart (env : MakeReadyEnv) : MakeReadyResult :=
  match env.getIP with
  | some e => ⟨some (.wrapped "Error getting IP address" e), false, false⟩
  | none =>
      match env.sshConnect with
      | some e => ⟨some e, false, false⟩
      | none =>
          if probeFails env.probe then
            ⟨some (.other "Error running commands on instance"), true, false⟩
          else ⟨none, true, false⟩

/-- Embedding of `makeReady` (ec2RunCmd.go:83-117): query the instance
status (a failure is wrapped and returned), start the instance when it is
not running, then continue with `makeReadyAfterStart`. -/
def makeReady (env : MakeReadyEnv) : MakeReadyResult :=
  match env.describeStatus with
  | .err e => ⟨some (.wrapped "Error getting instance status" e), false, false⟩
  | .ok states =>
      if needsStart states then
        match startInstance env with
        | some e => ⟨some (.wrapped "Error starting instance" e), false, false⟩
        | none => makeReadyAfterStart env
      else makeReadyAfterStart env

/-- Whether control in `makeReady` reaches the probe (with an open channel):
every step before the probe succeeded. -/
def reachesProbe (env : MakeReadyEnv) : Bool :=
  (match env.describeStatus with
   | .err _ => false
   | .ok states => !needsStart states || (startInstance env).isNone) &&
    env.getIP.isNone && env.sshConnect.isNone

/-- A concrete environment where every lifecycle step succeeds but the probe
command exits with status 2. -/
def probeFailEnv : MakeReadyEnv :=
  ⟨.ok ["running"], none, none, none, none, .ran (some (.exitError 2)) "" ""⟩

/-- C2: for every command line whose remote execution completes with an exit
code N (0 <= N <= 255), `RunCommandWithOutput` returns exit status exactly N
with a nil error, and `RunCommand` likewise. -/
theorem RunCommand_exit_code (cmd so se : String) (n : Nat) (h : n ≤ 255) :
    (RunCommandWithOutput cmd (.ran (runResultOfExit n) so se)).1 =
      ⟨(n : Int), so, se, none⟩ ∧
    (RunCommand cmd (.ran (runResultOfExit n) so se)).1 = ((n : Int), none) := by
  by_cases hn : n = 0
  · subst hn; exact ⟨rfl, rfl⟩
  · simp [RunCommand, RunCommandWithOutput, runResultOfExit, hn]

/-- Witness for C2 at the concrete exit code 7. -/
theorem RunCommand_exit_code_witness :
    (RunCommandWithOutput "false" (.ran (runResultOfExit 7) "" "")).1 =
      ⟨(7 : Int), "", "", none⟩ ∧
    (RunCommand "false" (.ran (runResultOfExit 7) "" "")).1 = ((7 : Int), none) :=
  RunCommand_exit_code "false" "" "" 7 (by decide)

/-- C3 counterexample: when the remote reports no exit status
(`*ssh.ExitMissingError`), the code returns the sentinel status 1 but does
NOT clear the error to nil, contradicting the claim that no error is
returned. -/
theorem RunCommand_exitMissing_counterexample :
    (RunCommandWithOutput "sleep 600" (.ran (some .exitMissing) "" "")).1.exitStatus = 1 ∧
    (RunCommandWithOutput "sleep 600" (.ran (some .exitMissing) "" "")).1.err ≠ none :=
  ⟨rfl, by decide⟩

/-- C3 (amended): when the remote reports no exit status, `RunCommand` and
`RunCommandWithOutput` return the fixed sentinel exit status 1 together with
the underlying `ExitMissingError` (a non-nil error), since the type switch
does not clear `err` in that case. -/
theorem RunCommand_exitMissing (cmd so se : String) :
    (RunCommandWithOutput cmd (.ran (some .exitMissing) so se)).1 =
      ⟨1, so, se, some .exitMissing⟩ ∧
    (RunCommand cmd (.ran (some .exitMissing) so se)).1 = (1, some .exitMissing) :=
  ⟨rfl, rfl⟩

/-- C4 counterexample: a failure to open the ephemeral sub-session returns
exit status -1, not the claimed sentinel 1 (the error is attached). -/
theorem RunCommand_sessionFail_counterexample :
    (RunCommand "true" (.noSession (.other "connection reset"))).1.1 = -1 ∧
    (RunCommand "true" (.noSession (.other "connection reset"))).1.1 ≠ 1 ∧
    (RunCommand "true" (.noSession (.other "connection reset"))).1.2 ≠ none :=
  ⟨rfl, by decide, by decide⟩

/-- C4 (amended): failures to open the sub-session or to allocate the
pseudo-terminal return exit status -1 together with the wrapped underlying
error; any other failure reported by `session.Run` itself (neither
`ExitError` nor `ExitMissingError`) returns the sentinel status 1 together
with the underlying error. -/
theorem RunCommand_failure_statuses (cmd so se m pre : String) (e inner : GoErr) :
    (RunCommandWithOutput cmd (.noSession e)).1 =
      ⟨-1, "", "", some (.wrapped "unable to create session" e)⟩ ∧
    (RunCommandWithOutput cmd (.noPty e)).1 =
      ⟨-1, "", "", some (.wrapped "request for pseudo terminal failed" e)⟩ ∧
    (RunCommandWithOutput cmd (.ran (some (.other m)) so se)).1 =
      ⟨1, so, se, some (.other m)⟩ ∧
    (RunCommandWithOutput cmd (.ran (some (.wrapped pre inner)) so se)).1 =
      ⟨1, so, se, some (.wrapped pre inner)⟩ :=
  ⟨rfl, rfl, rfl, rfl⟩

/-- C7: `BackgroundCommand` sends exactly one command string, of the form
`nohup bash -c '((cmd) &)' ` with `&>/dev/null` appended if and only if
`discardOutput` is true, and returns exactly the launch's exit status and
error as produced by `RunCommand` on that wrapped string. -/
theorem BackgroundCommand_wraps (cmd : String) (d : Bool) (o : SessionOutcome) :
    BackgroundCommand cmd d o = RunCommand (backgroundCmdString cmd d) o ∧
    backgroundCmdString cmd true =
      "nohup bash -c '((" ++ cmd ++ ") &)' " ++ "&>/dev/null" ∧
    backgroundCmdString cmd false = "nohup bash -c '((" ++ cmd ++ ") &)' " ∧
    (BackgroundCommand cmd d o).2.filter isRunCmdEvent =
      (if sessionRan o then [Event.runCmd (backgroundCmdString cmd d)] else []) := by
  refine ⟨rfl, rfl, rfl, ?_⟩
  cases o <;>
    simp [BackgroundCommand, RunCommand, RunCommandWithOutput, isRunCmdEvent,
      sessionRan]

/-- C10: `RunCommand` returns exactly the exit-status and error components of
`RunCommandWithOutput` on the same command line and outcome, performing the
same external calls (so the discard-output variant also requests a
pseudo-terminal, and the buffered output is merely dropped). -/
theorem RunCommand_refines (cmd : String) (o : SessionOutcome) :
    (RunCommand cmd o).1.1 = (RunCommandWithOutput cmd o).1.exitStatus ∧
    (RunCommand cmd o).1.2 = (RunCommandWithOutput cmd o).1.err ∧
    (RunCommand cmd o).2 = (RunCommandWithOutput cmd o).2 ∧
    (∀ res so se,
      Event.requestPty "xterm" 40 80 ∈
        (RunCommand cmd (SessionOutcome.ran res so se)).2) := by
  refine ⟨rfl, rfl, rfl, ?_⟩
  intro res so se
  simp [RunCommand, RunCommandWithOutput]

/-- The backslash and single-quote characters differ. -/
theorem backslash_ne_quote : backslashChar ≠ quoteChar := by decide

/-- Unquoting step: an opening quote outside quotes enters the quoted state. -/
theorem shellUnquote_false_quote (cs : List Char) :
    shellUnquote false (quoteChar :: cs) = shellUnquote true cs := by
  rw [shellUnquote.eq_def]
  simp

/-- Unquoting step: a backslash outside quotes escapes the next character. -/
theorem shellUnquote_false_backslash (d : Char) (ds : List Char) :
    shellUnquote false (backslashChar :: d :: ds) =
      (shellUnquote false ds).map (fun r => d :: r) := by
  rw [shellUnquote.eq_def]
  simp [backslash_ne_quote]

/-- Unquoting step: a closing quote inside quotes leaves the quoted state. -/
theorem shellUnquote_true_quote (cs : List Char) :
    shellUnquote true (quoteChar :: cs) = shellUnquote false cs := by
  rw [shellUnquote.eq_def]
  simp

/-- Unquoting step: inside quotes every non-quote character is literal. -/
theorem shellUnquote_true_cons (c : Char) (cs : List Char) (h : c ≠ quoteChar) :
    shellUnquote true (c :: cs) = (shellUnquote true cs).map (fun r => c :: r) := by
  rw [shellUnquote.eq_def]
  simp [h]

/-- Unquoting step: the empty word outside quotes is the empty path. -/
theorem shellUnquote_false_nil : shellUnquote false [] = some [] := by
  rw [shellUnquote.eq_def]

/-- Unquoting an escaped path from inside a quoted span, up to the closing
quote, recovers the path. -/
theorem shellUnquote_escapeQuotes (p : List Char) :
    shellUnquote true (escapeQuotes p ++ [quoteChar]) = some p := by
  induction p with
  | nil => simp [escapeQuotes, shellUnquote_true_quote, shellUnquote_false_nil]
  | cons c cs ih =>
      by_cases hc : c = quoteChar
      · subst hc
        simp [escapeQuotes, shellUnquote_true_quote, shellUnquote_false_quote,
          shellUnquote_false_backslash, ih]
      · simp [escapeQuotes, shellUnquote_true_cons _ _ hc, hc, ih]

/-- C6: `writeToFile` issues the single remote command `cat >'P'` where `P`
is the destination path with every single quote replaced by the idiom
quote-backslash-quote-quote, and shell-unquoting the quoted word yields
exactly the original path (round trip), with no character of the path ever
standing unquoted and unescaped. -/
theorem writeToFileCmd_roundtrip (dest : List Char) :
    writeToFileCmd dest = "cat >".toList ++ shellQuoted dest ∧
    shellUnquote false (shellQuoted dest) = some dest := by
  refine ⟨rfl, ?_⟩
  simp [shellQuoted, shellUnquote_false_quote, shellUnquote_escapeQuotes dest]

/-- Two lengths below 2^32 with the same 4-byte big-endian encoding are
equal. -/
theorem u32be_inj {m n : Nat} (hm : m < 4294967296) (hn : n < 4294967296)
    (h : u32be m = u32be n) : m = n := by
  simp [u32be] at h
  omega

/-- The SSH wire encoding of a public key is injective (the length prefix of
the algorithm name makes the encoding prefix-free), so an exact match on
`Marshal` is an exact match on the key. -/
theorem PubKey.Marshal_inj {k1 k2 : PubKey}
    (h1 : k1.algoName.length < 4294967296)
    (h2 : k2.algoName.length < 4294967296)
    (h : k1.Marshal = k2.Marshal) : k1 = k2 := by
  have h' : u32be k1.algoName.length ++ (k1.algoName ++ k1.keyRest) =
      u32be k2.algoName.length ++ (k2.algoName ++ k2.keyRest) := by
    simpa [PubKey.Marshal, sshWireStr, List.append_assoc] using h
  obtain ⟨hu, hrest⟩ := List.append_inj h' (by simp [u32be])
  have hl : k1.algoName.length = k2.algoName.length := u32be_inj h1 h2 hu
  obtain ⟨ha, hr⟩ := List.append_inj hrest hl
  cases k1
  cases k2
  simp_all

/-- C1: with successfully parsed credentials, `NewSSHCmdClient` offers to the
negotiation exactly the single host-key algorithm of the parsed key's type,
and the connection succeeds if and only if the remote presents exactly that
key — any other key, of the same or another type, is rejected as a
connection failure, with no trust-on-first-use or accept-and-continue
outcome. -/
theorem NewSSHCmdClient_fixed_host_key (username : String) (k remoteKey : PubKey)
    (h1 : k.algoName.length < 4294967296)
    (h2 : remoteKey.algoName.length < 4294967296) :
    (sshConfigOf username k).hostKeyAlgorithms = [k.keyType] ∧
    ((∃ cfg, (NewSSHCmdClient username (.ok k) (.presents remoteKey)).1 = .ok cfg)
      ↔ remoteKey = k) := by
  refine ⟨rfl, ?_, ?_⟩
  · rintro ⟨cfg, hcfg⟩
    by_cases hacc : handshakeAccepts (sshConfigOf username k) remoteKey = true
    · have hm : remoteKey.Marshal = k.Marshal := by
        have hb := hacc
        simp [handshakeAccepts, sshConfigOf, FixedHostKey] at hb
        exact hb.2
      exact PubKey.Marshal_inj h2 h1 hm
    · simp [NewSSHCmdClient, hacc] at hcfg
  · rintro rfl
    refine ⟨sshConfigOf username remoteKey, ?_⟩
    simp [NewSSHCmdClient, handshakeAccepts, sshConfigOf, FixedHostKey,
      PubKey.keyType]

/-- Witness for C1 at a concrete key presented back unchanged. -/
theorem NewSSHCmdClient_fixed_host_key_witness :
    (sshConfigOf "ec2-user" ⟨[7], [1, 2]⟩).hostKeyAlgorithms =
      [PubKey.keyType ⟨[7], [1, 2]⟩] ∧
    ((∃ cfg, (NewSSHCmdClient "ec2-user" (.ok ⟨[7], [1, 2]⟩)
        (.presents ⟨[7], [1, 2]⟩)).1 = .ok cfg) ↔
      (⟨[7], [1, 2]⟩ : PubKey) = ⟨[7], [1, 2]⟩) :=
  NewSSHCmdClient_fixed_host_key "ec2-user" ⟨[7], [1, 2]⟩ ⟨[7], [1, 2]⟩
    (by decide) (by decide)

/-- C8: when the credentials' host-key text fails to parse,
`NewSSHCmdClient` returns the wrapped parse error at construction time, its
only external call being the parse itself: no dial (and no PEM read) occurs,
under every network environment. -/
theorem NewSSHCmdClient_parse_error (username : String) (e : GoErr)
    (env : DialEnv) :
    (NewSSHCmdClient username (.err e) env).1 =
      .error (.wrapped "Error parsing host key" e) ∧
    (NewSSHCmdClient username (.err e) env).2 = [.parseHostKey] ∧
    NewClientEvent.dial ∉ (NewSSHCmdClient username (.err e) env).2 := by
  refine ⟨rfl, rfl, ?_⟩
  simp [NewSSHCmdClient]

/-- C5 counterexample: with every lifecycle step succeeding and the final
no-op probe exiting 2, `makeReady` returns an error while the channel it
opened is left open — it is not released before the call returns. -/
theorem makeReady_leak_counterexample :
    (makeReady probeFailEnv).err.isSome = true ∧
    (makeReady probeFailEnv).channelOpened = true ∧
    (makeReady probeFailEnv).channelClosed = false :=
  ⟨rfl, rfl, rfl⟩

/-- C5 (amended): `makeReady` never calls `Close` on the channel before
returning.  On failures before step 4 no channel has been opened, so none
can leak there; but when the probe of step 5 fails after the channel has
been opened, the channel remains open and unreleased at return. -/
theorem makeReady_no_release (env : MakeReadyEnv) :
    (makeReady env).channelClosed = false ∧
    ((makeReady env).channelOpened = true ↔ reachesProbe env = true) := by
  obtain ⟨ds, sr, wr, ip, ssh, pr⟩ := env
  cases ds with
  | err e => simp [makeReady, reachesProbe]
  | ok states =>
      cases hns : needsStart states <;> cases sr <;> cases wr <;>
        cases ip <;> cases ssh <;>
          simp [makeReady, makeReadyAfterStart, reachesProbe, startInstance,
            hns] <;>
          by_cases hp : probeFails pr = true <;> simp [hp]

/-- C9 counterexample: a second `Close` after a completed close returns an
error, so closing is not idempotent in the claimed sense of "no failure". -/
theorem EC2RemoteClient_Close_counterexample :
    (EC2RemoteClient.Close (EC2RemoteClient.Close ⟨false⟩).2).1 ≠ none := by
  decide

/-- C9 (amended): `EC2RemoteClient.Close` releases the held channel's
transport (closing the open connection succeeds and marks it closed); a
repeated `Close` causes no further state change, but it returns an error
rather than succeeding, so the operation is not idempotent in its return
value. -/
theorem EC2RemoteClient_Close_spec :
    (EC2RemoteClient.Close ⟨false⟩).1 = none ∧
    (EC2RemoteClient.Close ⟨false⟩).2.closed = true ∧
    (EC2RemoteClient.Close (EC2RemoteClient.Close ⟨false⟩).2).2 =
      (EC2RemoteClient.Close ⟨false⟩).2 ∧
    (EC2RemoteClient.Close (EC2RemoteClient.Close ⟨false⟩).2).1.isSome = true :=
  ⟨rfl, rfl, rfl, rfl⟩
